import Mathlib

/-
Verification of BlurredWindowBackground (src/BlurredWindowBackground.js),
the variant occupying lines 1 to 1040 of that file.  Numeric values are
modelled over the rationals, nullable values with Option, and the
single-threaded event interleavings as explicit step functions folded over
event lists.
-/

namespace BWB

/-! ## Overlay alpha computation

Shallow embedding of the alpha computation in
`_updateOverlayBasedOnCurrentPosition` (lines 813-822):

    if (extremeBrightness <= brightnessThresholdLow) alpha = realMode ? maxAlpha : minAlpha;
    else if (extremeBrightness >= brightnessThresholdHigh) alpha = realMode ? minAlpha : maxAlpha;
    else {
      const ratio = (extremeBrightness - low) / (high - low);
      alpha = realMode ? maxAlpha - (maxAlpha - minAlpha) * ratio
                       : minAlpha + (maxAlpha - minAlpha) * ratio;
    }
    alpha = Math.max(minAlpha, Math.min(maxAlpha, alpha));
-/

def computeOverlayAlpha (realMode : Bool) (minAlpha maxAlpha low high b : ℚ) : ℚ :=
  let alpha :=
    if b ≤ low then (if realMode then maxAlpha else minAlpha)
    else if b ≥ high then (if realMode then minAlpha else maxAlpha)
    else
      let r := (b - low) / (high - low)
      if realMode then maxAlpha - (maxAlpha - minAlpha) * r
      else minAlpha + (maxAlpha - minAlpha) * r
  max minAlpha (min maxAlpha alpha)

/-! ## Background position translation

Shallow embedding of `_updateBackgroundPosition` (lines 510-523):

    const margin = (this._isMaximized || this._isFullScreen) ? 0 : 5;
    const translateX = -(winBounds.x - screenBounds.x + margin);
    const translateY = -(winBounds.y - screenBounds.y + margin + this.options.titleBarHeight);
-/

def computeTranslate (winX winY screenX screenY : ℚ) (isMaxOrFs : Bool)
    (titleBarHeight : ℚ) : ℚ × ℚ :=
  let margin : ℚ := if isMaxOrFs then 0 else 5
  (-(winX - screenX + margin), -(winY - screenY + margin + titleBarHeight))

/-- Modelled from the spec claim wording for comparison: the claimed formula
applies the title-bar offset on BOTH axes
(translate = -(viewportOrigin - displayOrigin + margin + titleBarOffset) per axis). -/
def claimTranslate (winX winY screenX screenY : ℚ) (isMaxOrFs : Bool)
    (titleBarHeight : ℚ) : ℚ × ℚ :=
  let margin : ℚ := if isMaxOrFs then 0 else 5
  (-(winX - screenX + margin + titleBarHeight),
   -(winY - screenY + margin + titleBarHeight))

/-! ## Screen resolution (`_getCurrentScreenForWindow`, NW.js branch, lines 914-949)

The NW.js branch iterates over the known screens list; the Electron branch
delegates to an external host call and is not part of this model.  The code:

    if (screens.length === 0) return this._getDefaultScreenInfo();
    for (const s of screens) {
      if (s.bounds && s.bounds.width > 0 && s.bounds.height > 0 &&
          winCX >= s.bounds.x && winCX < (s.bounds.x + s.bounds.width) &&
          winCY >= s.bounds.y && winCY < (s.bounds.y + s.bounds.height)) return s;
    }
    return screens.find(s => s.isBuiltIn && s.bounds && s.bounds.width > 0) ||
        screens.find(s => s.bounds && s.bounds.width > 0) ||
        (screens.length > 0 ? screens[0] : this._getDefaultScreenInfo());
-/

structure SBounds where
  x : ℚ
  y : ℚ
  width : ℚ
  height : ℚ
deriving DecidableEq, Repr

structure ScreenInfo where
  bounds : SBounds
  isBuiltIn : Bool
deriving DecidableEq, Repr

/-- `_getDefaultScreenInfo` (lines 945-949): the synthesized default display.
`window.screen.width || 1920` falls back on a zero (falsy) host value. -/
def getDefaultScreenInfo (hostW hostH : ℚ) : ScreenInfo :=
  { bounds := { x := 0, y := 0,
                width := if hostW = 0 then 1920 else hostW,
                height := if hostH = 0 then 1080 else hostH },
    isBuiltIn := false }

def screenContainsCenter (cx cy : ℚ) (s : ScreenInfo) : Bool :=
  decide (0 < s.bounds.width ∧ 0 < s.bounds.height ∧
    s.bounds.x ≤ cx ∧ cx < s.bounds.x + s.bounds.width ∧
    s.bounds.y ≤ cy ∧ cy < s.bounds.y + s.bounds.height)

def getCurrentScreenForWindow (screens : List ScreenInfo) (defaultInfo : ScreenInfo)
    (wb : SBounds) : ScreenInfo :=
  if screens.isEmpty then defaultInfo
  else
    let cx := wb.x + wb.width / 2
    let cy := wb.y + wb.height / 2
    match screens.find? (screenContainsCenter cx cy) with
    | some s => s
    | none =>
      match screens.find? (fun s => s.isBuiltIn && decide (0 < s.bounds.width)) with
      | some s => s
      | none =>
        match screens.find? (fun s => decide (0 < s.bounds.width)) with
        | some s => s
        | none => screens.headD defaultInfo

/-! ## Brightness sampling (`_getExtremeBrightnessFromWindowRegion`, lines 837-907)

The image-load callback path is modelled as a pure function.  The host canvas
pixel read `ctx.getImageData(sx, sy, sWidth, sHeight)` is modelled by an
environment function returning the flattened RGBA byte list.  JS
`Math.round(x)` equals `Int.floor (x + 1/2)`, which is `round` on ℚ, and
`Math.floor` applied to an integer is the identity. -/

structure RegionInput where
  imgW : ℤ
  imgH : ℤ
  winX : ℚ
  winY : ℚ
  winW : ℚ
  winH : ℚ
  scrX : ℚ
  scrY : ℚ
  pad : ℚ
  tbh : ℚ
  zip : ℚ
deriving DecidableEq, Repr

structure Crop where
  sx : ℤ
  sy : ℤ
  sw : ℤ
  sh : ℤ
deriving DecidableEq, Repr

/-- JS Math.round: the floor of x + 1/2. -/
def jsRound (q : ℚ) : ℤ :=
  ⌊q + 1 / 2⌋

/-- Lines 854-865: compute the viewport content rectangle on screen, scale by
the zip rate with rounding, and clamp to the image pixel bounds. -/
def cropRect (r : RegionInput) : Crop :=
  let cx := r.winX - r.scrX + r.pad
  let cy := r.winY - r.scrY + r.pad + r.tbh
  let cw := r.winW - 2 * r.pad
  let ch := r.winH - 2 * r.pad - r.tbh
  let sx0 := jsRound (cx * r.zip)
  let sy0 := jsRound (cy * r.zip)
  let sw0 := jsRound (cw * r.zip)
  let sh0 := jsRound (ch * r.zip)
  let sx := max 0 (min sx0 r.imgW)
  let sy := max 0 (min sy0 r.imgH)
  let sw := max 0 (min sw0 (r.imgW - sx))
  let sh := max 0 (min sh0 (r.imgH - sy))
  { sx := sx, sy := sy, sw := sw, sh := sh }

/-- One sampled luminance value: 0.299 R + 0.587 G + 0.114 B at byte index i. -/
def sampleBrightness (data : List ℚ) (i : ℕ) : ℚ :=
  299 / 1000 * data.getD i 0 + 587 / 1000 * data.getD (i + 1) 0 +
    114 / 1000 * data.getD (i + 2) 0

/-- Lines 841-907 of the image-load callback: reject on a zero-dimension
image, return the mode sentinel on a zero-area crop or empty data, otherwise
scan a stride-sampled subset of pixels tracking the minimum luminance in
light mode and the maximum in dark mode. -/
def getExtremeBrightnessFromWindowRegion (r : RegionInput) (light : Bool)
    (imageData : ℤ → ℤ → ℤ → ℤ → List ℚ) : Except String ℚ :=
  if r.imgW = 0 ∨ r.imgH = 0 then
    Except.error "image has zero dimensions"
  else
    let c := cropRect r
    if c.sw ≤ 0 ∨ c.sh ≤ 0 then
      Except.ok (if light then 0 else 255)
    else
      let data := imageData c.sx c.sy c.sw c.sh
      let pixels := data.length / 4
      if pixels = 0 then Except.ok (if light then 0 else 255)
      else
        let stride := max 1 (pixels / 20000) * 4
        let count := (data.length + stride - 1) / stride
        if count = 0 then Except.ok (if light then 0 else 255)
        else
          let extreme := (List.range count).foldl
            (fun ext k =>
              let b := sampleBrightness data (k * stride)
              if light then (if b < ext then b else ext)
              else (if b > ext then b else ext))
            (if light then (255 : ℚ) else 0)
          Except.ok extreme

/-! ## One regeneration cycle (`updateAndApplyBlurredWallpaper`, lines 525-656)

The cycle is modelled as a deterministic event trace under an environment
fixing the boolean facts the code branches on.  Preconditions assumed met
(temp directory available, `getWallpaper` returned a path, screen dimensions
positive) and no concurrent flow issuance, so every in-cycle flow-id check
passes.  A successful `_generateBlurredImage` call leaves its output file on
disk, so the post-generation `fs.existsSync` recheck succeeds exactly when
generation reported success. -/

structure CycleEnv where
  isInitialLoad : Bool
  forceRegenerate : Bool
  /-- newOriginalPath differs from currentOriginalWallpaperPath (line 564). -/
  wallpaperChanged : Bool
  /-- fs.existsSync(blurredImagePreviewPath) at line 575. -/
  previewExists : Bool
  /-- fs.existsSync(blurredImageFinalPath) at line 576. -/
  finalExists : Bool
  /-- outcome of the preview transform when actually invoked. -/
  previewGenSucceeds : Bool
  /-- outcome of the final transform when actually invoked. -/
  finalGenSucceeds : Bool
  /-- currentAppliedCssUrl already equals the final artifact css url (line 580). -/
  appliedUrlIsFinal : Bool
deriving DecidableEq, Repr

inductive ArtifactKind
  | preview
  | final
deriving DecidableEq, Repr

inductive CycleEvent
  /-- a call to `_saveMetadata`. -/
  | metaWrite
  /-- a `processor.blurImage` invocation inside `_generateBlurredImage`. -/
  | transformInvoke (k : ArtifactKind)
  /-- a `_applyBackgroundImage` call for a cache artifact. -/
  | applyImage (k : ArtifactKind)
  /-- early-return branch when the final url is already applied: overlay only. -/
  | reuseOverlayOnly
  /-- line 632: backgroundImage set to none after total generation failure. -/
  | setBackgroundNone
  /-- a `_updateOverlayBasedOnCurrentPosition` call from the cycle tail. -/
  | overlayUpdate
  /-- `_scheduleNextWallpaperCheck`; true marks the error interval. -/
  | schedule (err : Bool)
deriving DecidableEq, Repr

/-- Line 589: needsProcessing. -/
def needsProcessing (e : CycleEnv) : Bool :=
  e.forceRegenerate || e.wallpaperChanged || !e.previewExists || !e.finalExists

/-- Line 578: the early reuse branch condition. -/
def earlyReuse (e : CycleEnv) : Bool :=
  !e.forceRegenerate && !e.wallpaperChanged && e.finalExists && !e.isInitialLoad

/-- Whether the preview `_generateBlurredImage` call reaches the transform:
its forceGenerateThisImage argument is trulyForceImageGen or missing preview
(line 599), and with that argument false an existing output short-circuits
(line 678). -/
def previewInvoked (e : CycleEnv) : Bool :=
  e.forceRegenerate || e.wallpaperChanged || !e.previewExists

def finalInvoked (e : CycleEnv) : Bool :=
  e.forceRegenerate || e.wallpaperChanged || !e.finalExists

/-- Result of the preview generation call inside the needsProcessing branch. -/
def previewGenerated (e : CycleEnv) : Bool :=
  if previewInvoked e then e.previewGenSucceeds else true

/-- Result of the final generation call inside the needsProcessing branch. -/
def finalGenerated (e : CycleEnv) : Bool :=
  if finalInvoked e then e.finalGenSucceeds else true

/-- The trace of externally visible actions of one cycle, lines 564-647. -/
def runCycle (e : CycleEnv) : List CycleEvent :=
  let preMeta : List CycleEvent :=
    if e.wallpaperChanged || e.forceRegenerate then [.metaWrite] else []
  if earlyReuse e then
    preMeta ++
      (if e.appliedUrlIsFinal then [.reuseOverlayOnly]
       else [.applyImage .final]) ++ [.schedule false]
  else if needsProcessing e then
    let previewEvents :=
      (if previewInvoked e then [CycleEvent.transformInvoke .preview] else []) ++
      (if previewGenerated e then [CycleEvent.applyImage .preview] else [])
    let finalEvents :=
      (if finalInvoked e then [CycleEvent.transformInvoke .final] else []) ++
      (if finalGenerated e then [CycleEvent.applyImage .final, CycleEvent.metaWrite]
       else if !previewGenerated e then [CycleEvent.setBackgroundNone] else [])
    preMeta ++ previewEvents ++ finalEvents ++ [.overlayUpdate, .schedule false]
  else
    -- not stale and not the early branch: only reachable on the initial load,
    -- lines 636-642 re-apply whatever cached artifact exists.
    preMeta ++
      (if e.finalExists then [CycleEvent.applyImage .final]
       else if e.previewExists then [CycleEvent.applyImage .preview] else []) ++
      [.overlayUpdate, .schedule false]

def isTransformInvoke : CycleEvent → Bool
  | .transformInvoke _ => true
  | _ => false

def countTransformInvocations (t : List CycleEvent) : ℕ :=
  t.countP isTransformInvoke

def countMetaWrites (t : List CycleEvent) : ℕ :=
  t.count CycleEvent.metaWrite

/-- Modelled from the spec claim wording for comparison: the claimed no-op
condition requires identity unchanged, force false, and BOTH artifacts
present. -/
def claimNoOpCond (e : CycleEnv) : Bool :=
  !e.wallpaperChanged && !e.forceRegenerate && e.previewExists && e.finalExists

/-! ## `_generateBlurredImage` (lines 658-699) -/

structure GenEnv where
  processorLoaded : Bool
  tempDir : Option String
  fsExists : String → Bool
  /-- outcome of constructing the processor and awaiting blurImage: an error
  models a thrown exception, ok true a result with a blob, ok false a result
  without one. -/
  blurOutcome : Except String Bool
  /-- outcome of blurredBlobInstance.toFile; an error models a throw. -/
  toFileOutcome : Except String Unit

/-- Returns the boolean result together with the number of transform
invocations performed.  Totality over the failure modes is structural: the
try block catches every throw (lines 694-698) and each guard returns false. -/
def generateBlurredImage (env : GenEnv) (sourcePath : Option String)
    (outputPath : Option String) (forceGenerateThisImage : Bool) : Bool × ℕ :=
  if !env.processorLoaded then (false, 0)
  else if env.tempDir = none ∨ outputPath = none then (false, 0)
  else
    match sourcePath with
    | none => (false, 0)
    | some src =>
      if src.isEmpty || !env.fsExists src then (false, 0)
      else if !forceGenerateThisImage && (outputPath.elim false env.fsExists) then
        (true, 0)
      else
        match env.blurOutcome with
        | Except.error _ => (false, 1)
        | Except.ok hasBlob =>
          if hasBlob then
            match env.toFileOutcome with
            | Except.ok _ => (true, 1)
            | Except.error _ => (false, 1)
          else (false, 1)

/-! ## Transition state machine (`_applyBackgroundImage`, lines 712-785,
flow issuance at lines 566-569, and `destroy` at lines 997-1033)

The single-threaded interleaving of apply calls, transition completions,
safety timeouts, flow issuances, and destroy is modelled as a step function
over an explicit state, folded over an event list.  `_pathToCssUrl` depends
on the file modification time; within one interleaving window it is a fixed
function of the path, supplied by the environment.  Every internal call site
passes a concrete flowId, so the `flowId !== undefined` disjunct is always
false and is dropped. -/

/-- JS `String.prototype.includes` on a nonempty needle. -/
def jsIncludes (s needle : String) : Bool :=
  (s.splitOn needle).length > 1

structure ApplyEnv where
  /-- fs.existsSync at line 724. -/
  fsExists : String → Bool
  /-- `_pathToCssUrl` with the modification times fixed for the window. -/
  cssUrl : String → String
  /-- this.blurredImageFinalPath, consulted by the stale check at line 745. -/
  finalPath : Option String

structure TState where
  activeFlowId : ℕ
  /-- this.backgroundContainer is non-null. -/
  hasContainer : Bool
  /-- backgroundContainer.style.backgroundImage. -/
  bgImage : Option String
  currentAppliedCssUrl : Option String
  lastAppliedImagePath : Option String
  isTransitioning : Bool
  pendingImage : Option String
  /-- number of `_updateOverlayBasedOnCurrentPosition` calls performed. -/
  overlayUpdates : ℕ
deriving DecidableEq, Repr

inductive TEvent
  /-- `this._activeWallpaperFlowId++` (line 568), from a staleness trigger. -/
  | issueFlow
  /-- the synchronous prefix of `_applyBackgroundImage(path, flowId, isRestore)`
  up to and including the start of a transition. -/
  | applyEntry (path : String) (flowId : ℕ) (isRestore : Bool)
  /-- the `transitionend` handler for the transition started with these
  captured arguments (lines 743-762). -/
  | transitionEnd (path : String) (flowId : ℕ) (isRestore : Bool)
  /-- the safety timeout body for that transition (lines 765-781). -/
  | safetyTimeout (path : String) (flowId : ℕ) (isRestore : Bool)
  /-- `destroy()` (lines 997-1033). -/
  | destroy
deriving DecidableEq, Repr

/-- Lines 714-741: entry of `_applyBackgroundImage`.  The handler and timeout
registrations are represented by the corresponding later events of a trace. -/
def applyEntryStep (env : ApplyEnv) (s : TState) (p : String) (fid : ℕ)
    (restore : Bool) : TState :=
  if fid ≠ s.activeFlowId ∧ ¬restore then s
  else if ¬s.hasContainer then s
  else if s.isTransitioning ∧ ¬restore then { s with pendingImage := some p }
  else if ¬env.fsExists p then
    { s with currentAppliedCssUrl :=
        match s.currentAppliedCssUrl with
        | some u => if jsIncludes u p then none else some u
        | none => none }
  else
    let url := env.cssUrl p
    if s.currentAppliedCssUrl = some url ∧ ¬restore then
      { s with lastAppliedImagePath := some p,
               overlayUpdates :=
                 if fid = s.activeFlowId ∨ restore then s.overlayUpdates + 1
                 else s.overlayUpdates }
    else
      { s with isTransitioning := true,
               lastAppliedImagePath := some p,
               bgImage := some url }

/-- Lines 743-762: the transitionend handler.  When a pending image exists the
handler schedules a new apply for it with the then-active flow id; that
scheduled call appears as a later applyEntry event of the trace. -/
def transitionEndStep (env : ApplyEnv) (s : TState) (p : String) (fid : ℕ)
    (restore : Bool) : TState :=
  if fid ≠ s.activeFlowId ∧ env.finalPath ≠ some p ∧ ¬restore then
    { s with isTransitioning := false, pendingImage := none }
  else
    { s with currentAppliedCssUrl := some (env.cssUrl p),
             isTransitioning := false,
             pendingImage := none,
             overlayUpdates :=
               if s.pendingImage = none ∧ (fid = s.activeFlowId ∨ restore) then
                 s.overlayUpdates + 1
               else s.overlayUpdates }

/-- Lines 765-781: the safety timeout body, a no-op unless a transition is
still in progress. -/
def safetyTimeoutStep (env : ApplyEnv) (s : TState) (p : String) (fid : ℕ)
    (restore : Bool) : TState :=
  if ¬s.isTransitioning then s
  else
    { s with currentAppliedCssUrl := some (env.cssUrl p),
             isTransitioning := false,
             pendingImage := none,
             overlayUpdates :=
               if s.pendingImage = none ∧ (fid = s.activeFlowId ∨ restore) then
                 s.overlayUpdates + 1
               else s.overlayUpdates }

/-- `destroy()`: increments the flow id first (line 998), then removes the DOM
elements and clears the recorded paths (lines 1027-1031). -/
def destroyStep (s : TState) : TState :=
  { s with activeFlowId := s.activeFlowId + 1,
           hasContainer := false,
           bgImage := none,
           currentAppliedCssUrl := none,
           lastAppliedImagePath := none }

def step (env : ApplyEnv) (s : TState) : TEvent → TState
  | .issueFlow => { s with activeFlowId := s.activeFlowId + 1 }
  | .applyEntry p fid r => applyEntryStep env s p fid r
  | .transitionEnd p fid r => transitionEndStep env s p fid r
  | .safetyTimeout p fid r => safetyTimeoutStep env s p fid r
  | .destroy => destroyStep s

def run (env : ApplyEnv) (s : TState) (events : List TEvent) : TState :=
  events.foldl (step env) s

/-! ## Theorems -/

/-- The clamp to the configured alpha range is monotone in its argument. -/
lemma clamp_mono {minA maxA x y : ℚ} (h : x ≤ y) :
    max minA (min maxA x) ≤ max minA (min maxA y) :=
  max_le_max le_rfl (min_le_min le_rfl h)

/-- Between the thresholds the alpha computation takes the interpolation
branch. -/
lemma computeOverlayAlpha_between (realMode : Bool) (minA maxA low high b : ℚ)
    (h1 : low < b) (h2 : b < high) :
    computeOverlayAlpha realMode minA maxA low high b =
      max minA (min maxA
        (if realMode then maxA - (maxA - minA) * ((b - low) / (high - low))
         else minA + (maxA - minA) * ((b - low) / (high - low)))) := by
  unfold computeOverlayAlpha
  rw [if_neg (not_le.mpr h1), if_neg (not_le.mpr h2)]

/-- C3: for every brightness and every configuration with
minAlpha ≤ maxAlpha and brightnessThresholdLow < brightnessThresholdHigh,
the computed overlay alpha lies in the configured range; at the low
threshold it equals the mode-appropriate extreme and at the high threshold
the opposite extreme; and between the thresholds it is monotone (decreasing
in light mode, increasing in dark mode), being a linear interpolation. -/
theorem overlayAlpha_spec (realMode : Bool) (minA maxA low high : ℚ)
    (hab : minA ≤ maxA) (hlh : low < high) :
    (∀ b, minA ≤ computeOverlayAlpha realMode minA maxA low high b ∧
          computeOverlayAlpha realMode minA maxA low high b ≤ maxA) ∧
    computeOverlayAlpha realMode minA maxA low high low =
      (if realMode then maxA else minA) ∧
    computeOverlayAlpha realMode minA maxA low high high =
      (if realMode then minA else maxA) ∧
    (∀ b₁ b₂, low < b₁ → b₁ ≤ b₂ → b₂ < high →
      (realMode = true →
        computeOverlayAlpha realMode minA maxA low high b₂ ≤
          computeOverlayAlpha realMode minA maxA low high b₁) ∧
      (realMode = false →
        computeOverlayAlpha realMode minA maxA low high b₁ ≤
          computeOverlayAlpha realMode minA maxA low high b₂)) := by
  refine ⟨?_, ?_, ?_, ?_⟩
  · intro b
    unfold computeOverlayAlpha
    constructor
    · exact le_max_left _ _
    · exact max_le hab (min_le_left _ _)
  · unfold computeOverlayAlpha
    rw [if_pos (le_refl low)]
    cases realMode
    · simp only [Bool.false_eq_true, if_false]
      rw [min_eq_right hab, max_self]
    · simp only [if_true]
      rw [min_self, max_eq_right hab]
  · unfold computeOverlayAlpha
    rw [if_neg (not_le.mpr hlh), if_pos (le_refl high)]
    cases realMode
    · simp only [Bool.false_eq_true, if_false]
      rw [min_self, max_eq_right hab]
    · simp only [if_true]
      rw [min_eq_right hab, max_self]
  · intro b₁ b₂ hb1 hle hb2
    have hb1h : b₁ < high := lt_of_le_of_lt hle hb2
    have hb2l : low < b₂ := lt_of_lt_of_le hb1 hle
    have hpos : (0 : ℚ) < high - low := by linarith
    have hr : (b₁ - low) / (high - low) ≤ (b₂ - low) / (high - low) := by
      apply (div_le_div_iff_of_pos_right hpos).mpr
      linarith
    have hd : (0 : ℚ) ≤ maxA - minA := by linarith
    have hmul : (maxA - minA) * ((b₁ - low) / (high - low)) ≤
        (maxA - minA) * ((b₂ - low) / (high - low)) :=
      mul_le_mul_of_nonneg_left hr hd
    rw [computeOverlayAlpha_between realMode minA maxA low high b₁ hb1 hb1h,
        computeOverlayAlpha_between realMode minA maxA low high b₂ hb2l hb2]
    constructor
    · intro h; subst h
      simp only [if_true]
      exact clamp_mono (by linarith)
    · intro h; subst h
      simp only [Bool.false_eq_true, if_false]
      exact clamp_mono (by linarith)

/-- C3 witness: concrete evaluation at the default configuration. -/
theorem overlayAlpha_spec_witness :
    computeOverlayAlpha true (1/2) (3/4) 70 180 70 = 3/4 ∧
    computeOverlayAlpha true (1/2) (3/4) 70 180 180 = 1/2 := by
  have h := overlayAlpha_spec true (1/2) (3/4) 70 180 (by norm_num) (by norm_num)
  exact ⟨by simpa using h.2.1, by simpa using h.2.2.1⟩

/-- C7 counterexample: with titleBarHeight 10 the code computes
translateX = -5, while the claimed per-axis formula gives -15, because the
code applies the title-bar offset only on the y axis. -/
theorem translate_counterexample :
    computeTranslate 0 0 0 0 false 10 = (-5, -15) ∧
    claimTranslate 0 0 0 0 false 10 = (-15, -15) ∧
    computeTranslate 0 0 0 0 false 10 ≠ claimTranslate 0 0 0 0 false 10 := by
  refine ⟨by norm_num [computeTranslate], by norm_num [claimTranslate], ?_⟩
  norm_num [computeTranslate, claimTranslate]

/-- C7 amended: on the y axis the code matches the claimed formula, while on
the x axis it matches exactly when the title-bar offset is zero: the code
computes translateX = -(winX - screenX + margin) with no title-bar term. -/
theorem translate_amended (winX winY screenX screenY : ℚ) (isMaxOrFs : Bool)
    (tbh : ℚ) :
    (computeTranslate winX winY screenX screenY isMaxOrFs tbh).2 =
      (claimTranslate winX winY screenX screenY isMaxOrFs tbh).2 ∧
    ((computeTranslate winX winY screenX screenY isMaxOrFs tbh).1 =
      (claimTranslate winX winY screenX screenY isMaxOrFs tbh).1 ↔ tbh = 0) := by
  unfold computeTranslate claimTranslate
  constructor
  · rfl
  · constructor
    · intro h
      simp only [neg_inj] at h
      linarith
    · intro h
      subst h
      norm_num

/-- C7 amended witness: with a zero title bar the two formulas agree on the
x axis. -/
theorem translate_amended_witness :
    (computeTranslate 3 4 1 2 false 0).1 = (claimTranslate 3 4 1 2 false 0).1 :=
  (translate_amended 3 4 1 2 false 0).2.mpr rfl

/-- C5 counterexample: the fallback chain tests only the width of a display,
so a known display of bounds 100 by 0 is returned with a non-positive
height; and with a single display of zero bounds the function returns that
display (screens[0]), not the synthesized default. -/
theorem screen_resolution_counterexample :
    (getCurrentScreenForWindow [⟨⟨0, 0, 100, 0⟩, false⟩]
        (getDefaultScreenInfo 1920 1080) ⟨0, 0, 10, 10⟩).bounds.height ≤ 0 ∧
    getCurrentScreenForWindow [⟨⟨0, 0, 0, 0⟩, false⟩]
        (getDefaultScreenInfo 1920 1080) ⟨0, 0, 10, 10⟩ = ⟨⟨0, 0, 0, 0⟩, false⟩ ∧
    getCurrentScreenForWindow [⟨⟨0, 0, 0, 0⟩, false⟩]
        (getDefaultScreenInfo 1920 1080) ⟨0, 0, 10, 10⟩ ≠
      getDefaultScreenInfo 1920 1080 := by
  refine ⟨by decide, by decide, by decide⟩

/-- C5 amended: the result is always either one of the known displays or the
synthesized default, so whenever every known display and the default have
positive width and height the function never returns non-positive
dimensions; the claimed unconditional guarantee fails because the fallback
chain never tests heights and its last resort is the first known display. -/
theorem screen_resolution_amended (screens : List ScreenInfo) (d : ScreenInfo)
    (wb : SBounds)
    (hs : ∀ s ∈ screens, 0 < s.bounds.width ∧ 0 < s.bounds.height)
    (hd : 0 < d.bounds.width ∧ 0 < d.bounds.height) :
    (getCurrentScreenForWindow screens d wb ∈ screens ∨
      getCurrentScreenForWindow screens d wb = d) ∧
    0 < (getCurrentScreenForWindow screens d wb).bounds.width ∧
    0 < (getCurrentScreenForWindow screens d wb).bounds.height := by
  have hmem : getCurrentScreenForWindow screens d wb ∈ screens ∨
      getCurrentScreenForWindow screens d wb = d := by
    unfold getCurrentScreenForWindow
    by_cases he : screens.isEmpty
    · rw [if_pos he]; exact Or.inr rfl
    · rw [if_neg he]
      dsimp only
      cases h1 : screens.find? (screenContainsCenter
          (wb.x + wb.width / 2) (wb.y + wb.height / 2)) with
      | some s => exact Or.inl (List.mem_of_find?_eq_some h1)
      | none =>
        cases h2 : screens.find?
            (fun s => s.isBuiltIn && decide (0 < s.bounds.width)) with
        | some s => exact Or.inl (List.mem_of_find?_eq_some h2)
        | none =>
          cases h3 : screens.find? (fun s => decide (0 < s.bounds.width)) with
          | some s => exact Or.inl (List.mem_of_find?_eq_some h3)
          | none =>
            cases hsc : screens with
            | nil => rw [hsc] at he; simp at he
            | cons a t => exact Or.inl (by simp)
  refine ⟨hmem, ?_⟩
  cases hmem with
  | inl h => exact hs _ h
  | inr h => rw [h]; exact hd

/-- C5 amended witness: a viewport centered outside the single known display
still resolves to a positive-dimension display. -/
theorem screen_resolution_amended_witness :
    0 < (getCurrentScreenForWindow [⟨⟨0, 0, 1920, 1080⟩, true⟩]
        (getDefaultScreenInfo 1920 1080) ⟨5000, 5000, 10, 10⟩).bounds.width :=
  (screen_resolution_amended [⟨⟨0, 0, 1920, 1080⟩, true⟩]
    (getDefaultScreenInfo 1920 1080) ⟨5000, 5000, 10, 10⟩
    (by decide) (by decide)).2.1

/-- C6 counterexample: an image whose natural width is zero yields a clamped
crop of zero area, yet the sampler rejects (the zero-dimension check at line
844 runs before the crop is computed) instead of resolving with the
sentinel. -/
theorem brightness_zero_area_counterexample :
    ((cropRect ⟨0, 10, 0, 0, 10, 10, 0, 0, 0, 0, 1/4⟩).sw ≤ 0 ∨
      (cropRect ⟨0, 10, 0, 0, 10, 10, 0, 0, 0, 0, 1/4⟩).sh ≤ 0) ∧
    getExtremeBrightnessFromWindowRegion ⟨0, 10, 0, 0, 10, 10, 0, 0, 0, 0, 1/4⟩
        true (fun _ _ _ _ => []) =
      Except.error "image has zero dimensions" := by
  refine ⟨?_, rfl⟩
  norm_num [cropRect, jsRound]

/-- C6 amended: for every input whose image has nonzero dimensions and whose
computed and clamped crop rectangle has zero area, the sampler resolves with
the mode sentinel, 0 in light mode and 255 in dark mode, and never rejects. -/
theorem brightness_zero_area_amended (r : RegionInput) (light : Bool)
    (imageData : ℤ → ℤ → ℤ → ℤ → List ℚ)
    (hw : r.imgW ≠ 0) (hh : r.imgH ≠ 0)
    (hz : (cropRect r).sw ≤ 0 ∨ (cropRect r).sh ≤ 0) :
    getExtremeBrightnessFromWindowRegion r light imageData =
      Except.ok (if light then 0 else 255) := by
  unfold getExtremeBrightnessFromWindowRegion
  rw [if_neg (not_or.mpr ⟨hw, hh⟩)]
  dsimp only
  rw [if_pos hz]

/-- C6 amended witness: a zero-width viewport with a 10 by 10 image resolves
with the light-mode sentinel 0. -/
theorem brightness_zero_area_amended_witness :
    getExtremeBrightnessFromWindowRegion ⟨10, 10, 0, 0, 0, 0, 0, 0, 0, 0, 1/4⟩
        true (fun _ _ _ _ => []) = Except.ok 0 := by
  have h := brightness_zero_area_amended ⟨10, 10, 0, 0, 0, 0, 0, 0, 0, 0, 1/4⟩
    true (fun _ _ _ _ => []) (by norm_num) (by norm_num)
    (by norm_num [cropRect, jsRound])
  simpa using h

/-- C2 counterexample: a non-initial cycle with identity unchanged, force
false, final artifact present but preview artifact MISSING performs zero
transform invocations via the early reuse branch (line 578 never tests the
preview), although the claimed condition for a no-op is false there. -/
theorem regeneration_noop_counterexample :
    countTransformInvocations
      (runCycle ⟨false, false, false, false, true, true, true, false⟩) = 0 ∧
    claimNoOpCond ⟨false, false, false, false, true, true, true, false⟩ = false := by
  decide

/-- C2 amended: a cycle performs zero transform invocations exactly when the
identity is unchanged, force is false, the final artifact exists, and in
addition on an initial-load cycle the preview artifact exists; on non-initial
cycles the preview is irrelevant.  When the early reuse branch fires, the
cycle consists only of re-applying or keeping the cached final artifact and
rescheduling (no generation, no metadata write). -/
theorem regeneration_noop_amended (e : CycleEnv) :
    (countTransformInvocations (runCycle e) = 0 ↔
      (!e.wallpaperChanged && !e.forceRegenerate && e.finalExists &&
        (e.previewExists || !e.isInitialLoad)) = true) ∧
    (earlyReuse e = true →
      runCycle e = (if e.appliedUrlIsFinal then [CycleEvent.reuseOverlayOnly]
                    else [CycleEvent.applyImage .final]) ++
        [CycleEvent.schedule false]) := by
  obtain ⟨a, b, c, d, f, g, h, i⟩ := e
  revert a b c d f g h i
  decide

/-- C2 amended witness: concrete evaluation of both conjuncts on the
unchanged-with-both-artifacts environment. -/
theorem regeneration_noop_amended_witness :
    runCycle ⟨false, false, false, true, true, true, true, true⟩ =
      [CycleEvent.reuseOverlayOnly, CycleEvent.schedule false] := by
  have h := (regeneration_noop_amended
    ⟨false, false, false, true, true, true, true, true⟩).2 (by decide)
  simpa using h

/-- C8 counterexample: a cycle that detects a wallpaper change writes the
metadata file at line 571 before any generation runs, so a cycle whose
generation then fails entirely still performs one metadata write. -/
theorem metadata_write_counterexample :
    countMetaWrites
      (runCycle ⟨false, false, true, true, true, false, false, false⟩) = 1 ∧
    finalGenerated ⟨false, false, true, true, true, false, false, false⟩ = false ∧
    CycleEvent.applyImage .final ∉
      runCycle ⟨false, false, true, true, true, false, false, false⟩ := by
  decide

/-- C8 amended: the cycle writes the metadata file once when a wallpaper
change or forced regeneration is detected, before generation begins, and
once more after the final artifact is successfully produced; consequently in
a cycle without a detected change or force, any metadata write implies the
final generation succeeded. -/
theorem metadata_write_amended (e : CycleEnv) :
    countMetaWrites (runCycle e) =
      (if e.wallpaperChanged || e.forceRegenerate then 1 else 0) +
      (if !earlyReuse e && needsProcessing e && finalGenerated e then 1
       else 0) ∧
    (e.wallpaperChanged = false → e.forceRegenerate = false →
      0 < countMetaWrites (runCycle e) → finalGenerated e = true) := by
  obtain ⟨a, b, c, d, f, g, h, i⟩ := e
  revert a b c d f g h i
  decide

/-- C8 amended witness: an unchanged, unforced cycle with the final artifact
missing and a succeeding transform writes metadata, and the theorem recovers
that its final generation succeeded. -/
theorem metadata_write_amended_witness :
    finalGenerated ⟨false, false, false, true, false, true, true, false⟩ = true :=
  (metadata_write_amended ⟨false, false, false, true, false, true, true, false⟩).2
    rfl rfl (by decide)

/-- C10: `_generateBlurredImage` is total over its failure modes: a missing
processor, missing temp directory or output path, missing or nonexistent
source, a transform throw, a missing result blob, and a failing file write
each return false (never an escaping exception, every throw being caught at
the try boundary); and with forceGenerateThisImage false and the output file
already present it returns true with zero transform invocations. -/
theorem generateBlurredImage_spec (env : GenEnv) (src out : Option String)
    (force : Bool) :
    (env.processorLoaded = false →
      generateBlurredImage env src out force = (false, 0)) ∧
    (env.tempDir = none ∨ out = none →
      generateBlurredImage env src out force = (false, 0)) ∧
    (src = none → generateBlurredImage env src out force = (false, 0)) ∧
    (∀ s, src = some s → s.isEmpty = true ∨ env.fsExists s = false →
      generateBlurredImage env src out force = (false, 0)) ∧
    (∀ s o, src = some s → out = some o → env.processorLoaded = true →
      env.tempDir ≠ none → s.isEmpty = false → env.fsExists s = true →
      force = false → env.fsExists o = true →
      generateBlurredImage env src out force = (true, 0)) ∧
    (∀ s o, src = some s → out = some o → env.processorLoaded = true →
      env.tempDir ≠ none → s.isEmpty = false → env.fsExists s = true →
      (force = true ∨ env.fsExists o = false) →
      generateBlurredImage env src out force =
        (match env.blurOutcome with
         | Except.error _ => (false, 1)
         | Except.ok hasBlob =>
           if hasBlob then
             (match env.toFileOutcome with
              | Except.ok _ => (true, 1)
              | Except.error _ => (false, 1))
           else (false, 1))) := by
  refine ⟨?_, ?_, ?_, ?_, ?_, ?_⟩
  · intro h
    simp [generateBlurredImage, h]
  · intro h
    cases hp : env.processorLoaded <;> simp [generateBlurredImage, hp, h]
  · intro h
    subst h
    cases hp : env.processorLoaded <;>
      by_cases h2 : env.tempDir = none ∨ out = none <;>
        simp [generateBlurredImage, hp, h2]
  · intro s hsrc hbad
    subst hsrc
    cases hp : env.processorLoaded <;>
      by_cases h2 : env.tempDir = none ∨ out = none <;>
        cases hbad with
        | inl he => simp [generateBlurredImage, hp, h2, he]
        | inr he => simp [generateBlurredImage, hp, h2, he]
  · intro s o hsrc hout hp ht hse hfs hf hfo
    subst hsrc; subst hout; subst hf
    have h2 : ¬(env.tempDir = none ∨ some o = none) := by simp [ht]
    simp [generateBlurredImage, hp, h2, hse, hfs, hfo, ht]
  · intro s o hsrc hout hp ht hse hfs hforce
    subst hsrc; subst hout
    have h2 : ¬(env.tempDir = none ∨ some o = none) := by simp [ht]
    cases hforce with
    | inl hf =>
      subst hf
      simp [generateBlurredImage, hp, h2, hse, hfs, ht]
    | inr hf =>
      simp [generateBlurredImage, hp, h2, hse, hfs, hf, ht]

/-- C10 witness: with everything available, force false and the output file
present, the call returns true without invoking the transform. -/
theorem generateBlurredImage_spec_witness :
    generateBlurredImage
      ⟨true, some "t", fun _ => true, Except.ok true, Except.ok ()⟩
      (some "src.jpg") (some "out.webp") false = (true, 0) :=
  (generateBlurredImage_spec
      ⟨true, some "t", fun _ => true, Except.ok true, Except.ok ()⟩
      (some "src.jpg") (some "out.webp") false).2.2.2.2.1
    "src.jpg" "out.webp" rfl rfl rfl (by simp) rfl rfl rfl rfl

/-- A non-restore apply entry whose captured flow id is not the active one
returns without touching any state (guard at line 714). -/
lemma applyEntryStep_stale (env : ApplyEnv) (s : TState) (p : String) (fid : ℕ)
    (h : fid ≠ s.activeFlowId) : applyEntryStep env s p fid false = s := by
  unfold applyEntryStep
  rw [if_pos ⟨h, by simp⟩]

/-- No event ever decreases the active flow id. -/
lemma step_activeFlowId_le (env : ApplyEnv) (s : TState) (e : TEvent) :
    s.activeFlowId ≤ (step env s e).activeFlowId := by
  cases e with
  | issueFlow => simp [step]
  | applyEntry p fid r =>
    simp only [step]
    unfold applyEntryStep
    split_ifs <;> simp [apply_ite TState.activeFlowId]
  | transitionEnd p fid r =>
    simp only [step]
    unfold transitionEndStep
    split_ifs <;> simp
  | safetyTimeout p fid r =>
    simp only [step]
    unfold safetyTimeoutStep
    split_ifs <;> simp
  | destroy => simp [step, destroyStep]

/-- The active flow id is monotone along any event sequence. -/
lemma run_activeFlowId_le (env : ApplyEnv) (s : TState) (es : List TEvent) :
    s.activeFlowId ≤ (run env s es).activeFlowId := by
  induction es generalizing s with
  | nil => exact le_refl _
  | cons e t ih =>
    exact le_trans (step_activeFlowId_le env s e) (ih (step env s e))

/-- C1 amended: a non-restore apply entry carrying a stale flow id leaves the
whole state unchanged, and the visible background image only ever changes at
an apply-entry step whose captured flow id equals the active one or which is
a cache restore; however (see the counterexample) a transition-completion
continuation that finds itself stale still clears the transitioning flag. -/
theorem stale_result_never_applied (env : ApplyEnv) (s : TState) :
    (∀ p fid, fid ≠ s.activeFlowId →
      step env s (.applyEntry p fid false) = s) ∧
    (∀ e u, (step env s e).bgImage = some u → s.bgImage ≠ some u →
      ∃ p fid r, e = TEvent.applyEntry p fid r ∧
        (fid = s.activeFlowId ∨ r = true)) := by
  constructor
  · intro p fid h
    simp only [step]
    exact applyEntryStep_stale env s p fid h
  · intro e u hnew hold
    cases e with
    | issueFlow => exact absurd hnew hold
    | applyEntry p fid r =>
      refine ⟨p, fid, r, rfl, ?_⟩
      by_contra hcon
      push_neg at hcon
      obtain ⟨h1, h2⟩ := hcon
      have hid : applyEntryStep env s p fid r = s := by
        unfold applyEntryStep
        rw [if_pos ⟨h1, by simp [h2]⟩]
      simp only [step] at hnew
      rw [hid] at hnew
      exact hold hnew
    | transitionEnd p fid r =>
      have hbg : (step env s (.transitionEnd p fid r)).bgImage = s.bgImage := by
        simp only [step]
        unfold transitionEndStep
        split_ifs <;> rfl
      rw [hbg] at hnew
      exact absurd hnew hold
    | safetyTimeout p fid r =>
      have hbg : (step env s (.safetyTimeout p fid r)).bgImage = s.bgImage := by
        simp only [step]
        unfold safetyTimeoutStep
        split_ifs <;> rfl
      rw [hbg] at hnew
      exact absurd hnew hold
    | destroy => simp [step, destroyStep] at hnew

/-- C1 amended witness: a stale apply entry on a concrete state is the
identity. -/
theorem stale_result_never_applied_witness :
    step ⟨fun _ => true, fun p => p, none⟩
      ⟨0, true, none, none, none, false, none, 0⟩
      (.applyEntry "x" 5 false) =
    ⟨0, true, none, none, none, false, none, 0⟩ :=
  (stale_result_never_applied ⟨fun _ => true, fun p => p, none⟩
    ⟨0, true, none, none, none, false, none, 0⟩).1 "x" 5 (by decide)

/-- C1 counterexample: a transition is started while flow 1 is current, a new
flow is then issued, and the transitionend continuation — now stale — still
mutates the transition state by clearing the in-progress flag (line 746). -/
theorem stale_continuation_counterexample :
    (run ⟨fun _ => true, fun p => p, none⟩
      ⟨1, true, none, none, none, false, none, 0⟩
      [.applyEntry "a" 1 false, .issueFlow]).isTransitioning = true ∧
    (run ⟨fun _ => true, fun p => p, none⟩
      ⟨1, true, none, none, none, false, none, 0⟩
      [.applyEntry "a" 1 false, .issueFlow]).activeFlowId ≠ 1 ∧
    (run ⟨fun _ => true, fun p => p, none⟩
      ⟨1, true, none, none, none, false, none, 0⟩
      [.applyEntry "a" 1 false, .issueFlow,
       .transitionEnd "a" 1 false]).isTransitioning = false := by
  refine ⟨rfl, by decide, rfl⟩

/-- C9: destroy increments the active flow id before tearing anything down,
so a continuation that captured a flow id issued before destroy fails the
flow-id guard after destroy, whatever events follow, and a non-restore apply
entry with such an id leaves the state unchanged: no background image is
applied after the instance is destroyed. -/
theorem destroy_invalidates_captured_flows (env : ApplyEnv) (s : TState)
    (fid : ℕ) (hfid : fid ≤ s.activeFlowId) (es : List TEvent) (p : String) :
    (step env s .destroy).activeFlowId = s.activeFlowId + 1 ∧
    fid ≠ (run env (step env s .destroy) es).activeFlowId ∧
    step env (run env (step env s .destroy) es) (.applyEntry p fid false) =
      run env (step env s .destroy) es := by
  have h1 : (step env s .destroy).activeFlowId = s.activeFlowId + 1 := rfl
  have h2 : s.activeFlowId + 1 ≤
      (run env (step env s .destroy) es).activeFlowId := by
    rw [← h1]
    exact run_activeFlowId_le env _ es
  have hne : fid ≠ (run env (step env s .destroy) es).activeFlowId := by omega
  refine ⟨h1, hne, ?_⟩
  simp only [step]
  exact applyEntryStep_stale env _ p fid hne

/-- C9 witness: a continuation that captured flow id 3 before destroy is inert
afterwards even after a further flow issuance. -/
theorem destroy_invalidates_captured_flows_witness :
    step ⟨fun _ => true, fun p => p, none⟩
      (run ⟨fun _ => true, fun p => p, none⟩
        (step ⟨fun _ => true, fun p => p, none⟩
          ⟨3, true, none, none, none, false, none, 0⟩ .destroy)
        [.issueFlow])
      (.applyEntry "x" 3 false) =
    run ⟨fun _ => true, fun p => p, none⟩
      (step ⟨fun _ => true, fun p => p, none⟩
        ⟨3, true, none, none, none, false, none, 0⟩ .destroy)
      [.issueFlow] :=
  (destroy_invalidates_captured_flows ⟨fun _ => true, fun p => p, none⟩
    ⟨3, true, none, none, none, false, none, 0⟩ 3 (by decide)
    [.issueFlow] "x").2.2

/-- C4: with the flow current throughout, applying A while idle and then B
while the transition for A runs stores B as the single pending image without
starting a second transition; any later pending request overwrites the slot;
when the transition for A completes the pending slot is cleared for the
immediately scheduled re-apply of B under the active flow id (modelled as
the following apply-entry event), and the safety timeout clears it the same
way; the system then converges to B as the applied image, idle with an empty
pending slot. -/
theorem transition_coalescing (env : ApplyEnv) (s : TState) (A B : String)
    (hc : s.hasContainer = true) (ht : s.isTransitioning = false)
    (hp : s.pendingImage = none)
    (hfA : env.fsExists A = true) (hfB : env.fsExists B = true)
    (hneA : s.currentAppliedCssUrl ≠ some (env.cssUrl A))
    (hneAB : env.cssUrl A ≠ env.cssUrl B) :
    (run env s [.applyEntry A s.activeFlowId false,
      .applyEntry B s.activeFlowId false]).bgImage = some (env.cssUrl A) ∧
    (run env s [.applyEntry A s.activeFlowId false,
      .applyEntry B s.activeFlowId false]).isTransitioning = true ∧
    (run env s [.applyEntry A s.activeFlowId false,
      .applyEntry B s.activeFlowId false]).pendingImage = some B ∧
    (∀ C, (step env (run env s [.applyEntry A s.activeFlowId false,
      .applyEntry B s.activeFlowId false])
        (.applyEntry C s.activeFlowId false)).pendingImage = some C) ∧
    (run env s [.applyEntry A s.activeFlowId false,
      .applyEntry B s.activeFlowId false,
      .transitionEnd A s.activeFlowId false]).pendingImage = none ∧
    (run env s [.applyEntry A s.activeFlowId false,
      .applyEntry B s.activeFlowId false,
      .transitionEnd A s.activeFlowId false]).isTransitioning = false ∧
    (step env (run env s [.applyEntry A s.activeFlowId false,
      .applyEntry B s.activeFlowId false])
        (.safetyTimeout A s.activeFlowId false)).pendingImage = none ∧
    (run env s [.applyEntry A s.activeFlowId false,
      .applyEntry B s.activeFlowId false,
      .transitionEnd A s.activeFlowId false,
      .applyEntry B s.activeFlowId false,
      .transitionEnd B s.activeFlowId false]).bgImage = some (env.cssUrl B) ∧
    (run env s [.applyEntry A s.activeFlowId false,
      .applyEntry B s.activeFlowId false,
      .transitionEnd A s.activeFlowId false,
      .applyEntry B s.activeFlowId false,
      .transitionEnd B s.activeFlowId false]).currentAppliedCssUrl =
      some (env.cssUrl B) ∧
    (run env s [.applyEntry A s.activeFlowId false,
      .applyEntry B s.activeFlowId false,
      .transitionEnd A s.activeFlowId false,
      .applyEntry B s.activeFlowId false,
      .transitionEnd B s.activeFlowId false]).isTransitioning = false ∧
    (run env s [.applyEntry A s.activeFlowId false,
      .applyEntry B s.activeFlowId false,
      .transitionEnd A s.activeFlowId false,
      .applyEntry B s.activeFlowId false,
      .transitionEnd B s.activeFlowId false]).pendingImage = none := by
  have h1 : step env s (.applyEntry A s.activeFlowId false) =
      { s with isTransitioning := true, lastAppliedImagePath := some A,
               bgImage := some (env.cssUrl A) } := by
    simp only [step]
    unfold applyEntryStep
    simp [hc, ht, hfA, hneA]
  have h2 : step env (step env s (.applyEntry A s.activeFlowId false))
      (.applyEntry B s.activeFlowId false) =
      { s with isTransitioning := true, lastAppliedImagePath := some A,
               bgImage := some (env.cssUrl A), pendingImage := some B } := by
    rw [h1]
    simp only [step]
    unfold applyEntryStep
    simp [hc]
  have h12 : run env s [.applyEntry A s.activeFlowId false,
      .applyEntry B s.activeFlowId false] =
      { s with isTransitioning := true, lastAppliedImagePath := some A,
               bgImage := some (env.cssUrl A), pendingImage := some B } := by
    simp only [run, List.foldl]
    rw [h2]
  have h3 : run env s [.applyEntry A s.activeFlowId false,
      .applyEntry B s.activeFlowId false,
      .transitionEnd A s.activeFlowId false] =
      { s with isTransitioning := false, lastAppliedImagePath := some A,
               bgImage := some (env.cssUrl A), pendingImage := none,
               currentAppliedCssUrl := some (env.cssUrl A) } := by
    have : run env s [.applyEntry A s.activeFlowId false,
        .applyEntry B s.activeFlowId false,
        .transitionEnd A s.activeFlowId false] =
        step env (run env s [.applyEntry A s.activeFlowId false,
          .applyEntry B s.activeFlowId false])
          (.transitionEnd A s.activeFlowId false) := rfl
    rw [this, h12]
    simp only [step]
    unfold transitionEndStep
    simp
  have h4 : run env s [.applyEntry A s.activeFlowId false,
      .applyEntry B s.activeFlowId false,
      .transitionEnd A s.activeFlowId false,
      .applyEntry B s.activeFlowId false] =
      { s with isTransitioning := true, lastAppliedImagePath := some B,
               bgImage := some (env.cssUrl B), pendingImage := none,
               currentAppliedCssUrl := some (env.cssUrl A) } := by
    have : run env s [.applyEntry A s.activeFlowId false,
        .applyEntry B s.activeFlowId false,
        .transitionEnd A s.activeFlowId false,
        .applyEntry B s.activeFlowId false] =
        step env (run env s [.applyEntry A s.activeFlowId false,
          .applyEntry B s.activeFlowId false,
          .transitionEnd A s.activeFlowId false])
          (.applyEntry B s.activeFlowId false) := rfl
    rw [this, h3]
    simp only [step]
    unfold applyEntryStep
    simp [hc, hfB, hneAB]
  have h5 : run env s [.applyEntry A s.activeFlowId false,
      .applyEntry B s.activeFlowId false,
      .transitionEnd A s.activeFlowId false,
      .applyEntry B s.activeFlowId false,
      .transitionEnd B s.activeFlowId false] =
      { s with isTransitioning := false, lastAppliedImagePath := some B,
               bgImage := some (env.cssUrl B), pendingImage := none,
               currentAppliedCssUrl := some (env.cssUrl B),
               overlayUpdates := s.overlayUpdates + 1 } := by
    have : run env s [.applyEntry A s.activeFlowId false,
        .applyEntry B s.activeFlowId false,
        .transitionEnd A s.activeFlowId false,
        .applyEntry B s.activeFlowId false,
        .transitionEnd B s.activeFlowId false] =
        step env (run env s [.applyEntry A s.activeFlowId false,
          .applyEntry B s.activeFlowId false,
          .transitionEnd A s.activeFlowId false,
          .applyEntry B s.activeFlowId false])
          (.transitionEnd B s.activeFlowId false) := rfl
    rw [this, h4]
    simp only [step]
    unfold transitionEndStep
    simp
  refine ⟨by rw [h12], by rw [h12], by rw [h12], ?_, by rw [h3], by rw [h3],
    ?_, by rw [h5], by rw [h5], by rw [h5], by rw [h5]⟩
  · intro C
    rw [h12]
    simp only [step]
    unfold applyEntryStep
    simp [hc]
  · rw [h12]
    simp only [step]
    unfold safetyTimeoutStep
    simp

/-- C4 witness: the concrete scenario applying a then b converges to b. -/
theorem transition_coalescing_witness :
    (run ⟨fun _ => true, fun p => p, none⟩
      ⟨7, true, none, none, none, false, none, 0⟩
      [.applyEntry "a" 7 false, .applyEntry "b" 7 false,
       .transitionEnd "a" 7 false, .applyEntry "b" 7 false,
       .transitionEnd "b" 7 false]).bgImage = some "b" :=
  (transition_coalescing ⟨fun _ => true, fun p => p, none⟩
    ⟨7, true, none, none, none, false, none, 0⟩ "a" "b"
    rfl rfl rfl rfl rfl (by decide) (by decide)).2.2.2.2.2.2.2.1

end BWB
